import Mathlib

set_option autoImplicit false

namespace EasyA2A

/- ## Python dictionaries as association lists -/

/-- Model of Python dict lookup `d.get(k)` (and of the membership test `k in d`,
which holds exactly when the result is `some`). -/
def dictFind {α : Type} (k : String) : List (String × α) → Option α
  | [] => none
  | kv :: rest => if kv.1 = k then some kv.2 else dictFind k rest

/-- Model of Python dict assignment `d[k] = v`: overwrite the existing binding in
place, or append a new one. -/
def dictInsert {α : Type} (k : String) (v : α) : List (String × α) → List (String × α)
  | [] => [(k, v)]
  | kv :: rest => if kv.1 = k then (k, v) :: rest else kv :: dictInsert k v rest

/-- Python repr of a list of dict keys, `list(d.keys())`, as logged by
`ToolExecutor.execute` in its tool-not-found message. -/
def pyListRepr (keys : List String) : String :=
  "[" ++ String.intercalate ", " (keys.map (fun k => "\x27" ++ k ++ "\x27")) ++ "]"

/-- Python truthiness of `x or dflt` for an optional string: `None` and `""` are
falsy and select the default. -/
def pyOrStr (v : Option String) (dflt : String) : String :=
  match v with
  | some s => if s = "" then dflt else s
  | none => dflt

/- ## Messages and inputs (data model of the reasoning loops) -/

/-- One OpenAI-style tool call record carried on an assistant message:
`tool_call.id`, `tool_call.function.name`, `tool_call.function.arguments`
(the arguments are a JSON-encoded string). -/
structure ToolCallRec where
  id : String
  fname : String
  argumentsJson : String
deriving DecidableEq

/-- A chat message of `MCPAgent`: a dict `{"role": ..., "content": ...}`. -/
structure ChatMsg where
  role : String
  content : String
deriving DecidableEq

/-- A chat message of `ToolCallingLLMAgent`: role, optional content, optional
`tool_call_id` (only on tool-result messages from `ToolExecutor.execute_all`),
and the `tool_calls` list (only on assistant messages that request tools). -/
structure TCAMsg where
  role : String
  content : Option String
  toolCallId : Option String
  toolCalls : List ToolCallRec
deriving DecidableEq

/-- A Python value passed as `input_data` to `invoke`. The `reprS` fields carry
the `str()` rendering of the container values, which the source falls back to;
`pyDict` additionally records its string-valued entries for the
`input_data.get("content", ...)` lookup in `MCPAgent.invoke`. -/
inductive PyInput : Type
  | pyNone
  | pyStr (s : String)
  | pyList (msgs : List TCAMsg) (reprS : String)
  | pyDict (entries : List (String × String)) (reprS : String)
  | pyOther (reprS : String)
deriving DecidableEq

/-- The Python `str()` rendering of an input value; in particular
`str(None) = "None"`. -/
def pyStrRendering : PyInput → String
  | .pyNone => "None"
  | .pyStr s => s
  | .pyList _ r => r
  | .pyDict _ r => r
  | .pyOther r => r

/- ## ToolExecutor (src/core/tool_executor.py) -/

/-- Outcome of invoking one registered Python tool function (external user
code): it returns a `str` (with a flag telling whether `json.loads` accepts
it), returns a non-string value (recorded by its `json.dumps` rendering), or
raises (`TypeError` from a bad signature, or any other exception). -/
inductive PyCallOutcome : Type
  | retStr (s : String) (validJson : Bool)
  | retOther (dumpedJson : String)
  | raiseTypeError (msg : String)
  | raiseOther (msg : String)

/-- `ToolExecutor`: the registry `_tools` mapping a tool name to its function.
A function consumes the (opaque rendering of the) parsed arguments dict. -/
structure ToolExecutor where
  tools : List (String × (String → PyCallOutcome))

/-- Model of `json.dumps({"error": msg})` (string escaping not modelled; no
claim exercises it). -/
def dumpsError (msg : String) : String :=
  "\x7b\"error\": \"" ++ msg ++ "\"\x7d"

/-- Model of `json.dumps({"result": s})` for a string result that is not
itself valid JSON. -/
def dumpsResult (s : String) : String :=
  "\x7b\"result\": \"" ++ s ++ "\"\x7d"

/-- `ToolExecutor.execute`: look the tool up, parse its JSON arguments
(`argsLoads` is the `json.loads` oracle), run it, serialize the outcome.
Every failure branch returns an error JSON string; nothing is raised. -/
def ToolExecutor.execute (argsLoads : String → Except String String)
    (ex : ToolExecutor) (tc : ToolCallRec) : String :=
  match dictFind tc.fname ex.tools with
  | none =>
      dumpsError ("Tool \x27" ++ tc.fname ++ "\x27 not found. Available tools: "
        ++ pyListRepr (ex.tools.map (·.1)))
  | some toolFunc =>
      match argsLoads tc.argumentsJson with
      | .error e => dumpsError ("Failed to parse tool arguments: " ++ e)
      | .ok argsDict =>
          match toolFunc argsDict with
          | .retStr s true => s
          | .retStr s false => dumpsResult s
          | .retOther dumped => dumped
          | .raiseTypeError e =>
              dumpsError ("Invalid arguments for tool \x27" ++ tc.fname ++ "\x27: " ++ e)
          | .raiseOther e => dumpsError ("Tool execution error: " ++ e)

/-- `ToolExecutor.execute_all`: one `{"role": "tool", "tool_call_id": ..,
"content": ..}` record per request, in order. -/
def ToolExecutor.execute_all (argsLoads : String → Except String String)
    (ex : ToolExecutor) (toolCalls : List ToolCallRec) : List TCAMsg :=
  toolCalls.map (fun tc => ⟨"tool", some (ex.execute argsLoads tc), some tc.id, []⟩)

/- ## ToolCallingLLMAgent (src/agents/llm/tool_calling_agent.py) -/

/-- One `LLMResponse` as consumed by `ToolCallingLLMAgent.invoke`: content text
(possibly `None`) and the requested tool calls (`None` and `[]`, both falsy,
are identified as `[]`). -/
structure TCALLMResponse where
  content : Option String
  toolCalls : List ToolCallRec

/-- The assistant message appended to history when the model requested tools:
`{"role": "assistant", "content": ..., "tool_calls": [...]}`. -/
def assistantToolCallMsg (response : TCALLMResponse) : TCAMsg :=
  ⟨"assistant", response.content, none, response.toolCalls⟩

/-- The canned message returned when `ToolCallingLLMAgent.invoke` exhausts
`max_iterations`. -/
def maxIterationsMessage (maxIterations : Nat) : String :=
  "I\x27ve reached the maximum number of tool calls (" ++ toString maxIterations
    ++ "). Please try rephrasing your request or breaking it into smaller tasks."

/-- The `for iteration in range(self.max_iterations)` loop of
`ToolCallingLLMAgent.invoke`. `chat` is the `llm_manager.chat` oracle (an
external network call, `Except.error` when it raises); the whole turn body sits
in a `try/except`, so a raised inference error becomes an apology return value.
The second component counts the inference calls performed. -/
def toolCallingLoop (chat : List TCAMsg → Except String TCALLMResponse)
    (argsLoads : String → Except String String) (ex : ToolExecutor)
    (maxIterations : Nat) : Nat → List TCAMsg → String × Nat
  | 0, _ => (maxIterationsMessage maxIterations, 0)
  | fuel + 1, messages =>
      match chat messages with
      | .error e => ("Sorry, I encountered an error: " ++ e, 1)
      | .ok response =>
          if response.toolCalls.isEmpty then
            (pyOrStr response.content "No response content", 1)
          else
            let messages1 := messages ++ [assistantToolCallMsg response]
            let toolResults := ex.execute_all argsLoads response.toolCalls
            let messages2 := messages1 ++ toolResults
            let rest := toolCallingLoop chat argsLoads ex maxIterations fuel messages2
            (rest.1, rest.2 + 1)

/-- `ToolCallingLLMAgent._prepare_messages`: default a `None` input to
"Hello!", wrap a non-list input as a single user message, and prepend the
system prompt when the first message is not a system message. -/
def prepare_messages (systemPrompt : String) (input : PyInput) : List TCAMsg :=
  let input1 := match input with
    | .pyNone => PyInput.pyStr "Hello!"
    | other => other
  let messages := match input1 with
    | .pyList msgs _ => msgs
    | other => [⟨"user", some (pyStrRendering other), none, []⟩]
  match messages with
  | [] => [⟨"system", some systemPrompt, none, []⟩]
  | first :: rest =>
      if first.role = "system" then first :: rest
      else ⟨"system", some systemPrompt, none, []⟩ :: first :: rest

/-- `ToolCallingLLMAgent.invoke` with `max_iterations = maxIterations`. -/
def tcaInvoke (chat : List TCAMsg → Except String TCALLMResponse)
    (argsLoads : String → Except String String) (ex : ToolExecutor)
    (maxIterations : Nat) (systemPrompt : String) (input : PyInput) : String × Nat :=
  toolCallingLoop chat argsLoads ex maxIterations maxIterations
    (prepare_messages systemPrompt input)

/- ## MCPAgent (src/agents/mcp/mcp_agent.py) -/

/-- One MCP tool descriptor (`mcp.types.Tool`): name and description. -/
structure MCPTool where
  name : String
  description : String
deriving DecidableEq

/-- One `_tools_cache` entry: `{"server": server_name, "tool": tool}`. -/
structure ToolCacheEntry where
  server : String
  tool : MCPTool
deriving DecidableEq

/-- `MCPAgent.initialize`: when servers are configured, walk the load result of
`MCPManagerPool.get_all_tools` (passed here as `toolsByServer`) and store each
tool under the key `server:tool` in the existing `_tools_cache` dict. The dict
is not cleared first. -/
def mcpAgentInitialize (servers : List String)
    (toolsByServer : List (String × List MCPTool))
    (toolsCache : List (String × ToolCacheEntry)) : List (String × ToolCacheEntry) :=
  if servers.isEmpty then toolsCache
  else
    toolsByServer.foldl
      (fun cache serverTools =>
        serverTools.2.foldl
          (fun cache tool =>
            dictInsert (serverTools.1 ++ ":" ++ tool.name)
              ⟨serverTools.1, tool⟩ cache)
          cache)
      toolsCache

/-- One tool call parsed by `MCPAgent._parse_tool_calls` from a fenced JSON
block: `{"tool": ..., "arguments": {...}}` (the arguments dict is kept as an
opaque rendering). -/
structure MCPToolCall where
  tool : String
  argumentsDict : String

/-- An `mcp.types.CallToolResult` as consumed by `MCPAgent._execute_tool_call`:
optional structured content (`none` models the falsy cases `None`/empty) and
the content items, each with an optional `text` attribute. -/
structure CallToolResult where
  structuredContent : Option String
  contentItems : List (Option String)

/-- The content-extraction step of `MCPAgent._execute_tool_call`: prefer
structured content, else join the text fragments, else canned fallbacks. -/
def extractToolContent (result : CallToolResult) : String :=
  match result.structuredContent with
  | some sc => sc
  | none =>
      if result.contentItems.isEmpty then "Tool executed successfully (no output)"
      else
        let textParts := result.contentItems.filterMap id
        if textParts.isEmpty then "Tool executed successfully"
        else String.intercalate "\n" textParts

/-- A `_execute_tool_call` result dict: `{"tool": .., "result": ..}` on
success, `{"tool": .., "error": ..}` otherwise. -/
inductive MCPToolResult : Type
  | ok (tool : String) (result : String)
  | err (tool : String) (error : String)
deriving DecidableEq

/-- `MCPAgent._execute_tool_call`: unknown keys yield a not-found error result;
`call_tool` (the `callTool` oracle, covering `mcp_pool.get_client` and the
provider round-trip, `Except.error` when either raises) failures are caught and
yield an error result carrying `str(e)`. Nothing is raised. -/
def execute_tool_call (toolsCache : List (String × ToolCacheEntry))
    (callTool : String → String → String → Except String CallToolResult)
    (tc : MCPToolCall) : MCPToolResult :=
  match dictFind tc.tool toolsCache with
  | none => .err tc.tool ("Tool \x27" ++ tc.tool ++ "\x27 not found")
  | some info =>
      match callTool info.server info.tool.name tc.argumentsDict with
      | .ok result => .ok tc.tool (extractToolContent result)
      | .error e => .err tc.tool e

/-- One line of `MCPAgent._format_tool_results`: error results verbatim;
success results truncated to 2000 characters with a marker when longer. -/
def formatToolResultLine : MCPToolResult → String
  | .err toolName e => "\n[" ++ toolName ++ "] Error: " ++ e
  | .ok toolName res =>
      "\n[" ++ toolName ++ "] Result:\n" ++
        (if res.length > 2000 then res.take 2000 ++ "\n...(truncated)" else res)

/-- `MCPAgent._format_tool_results`: header plus one line per result, joined
with newlines. -/
def format_tool_results (results : List MCPToolResult) : String :=
  String.intercalate "\n" ("Tool execution results:" :: results.map formatToolResultLine)

/-- The user-message extraction at the top of `MCPAgent.invoke`: a string is
used as is, a dict contributes its "content" entry (falling back to its
`str()`), anything else is rendered with `str()`. -/
def extractUserMessage (input : PyInput) : String :=
  match input with
  | .pyStr s => s
  | .pyDict entries reprS => (dictFind "content" entries).getD reprS
  | other => pyStrRendering other

/-- `MCPAgent._build_initial_messages`: system prompt (configured one, or the
default when unset/empty) followed by the user message. -/
def build_initial_messages (systemPromptCfg : Option String)
    (defaultSystemPrompt : String) (userMessage : String) : List ChatMsg :=
  [⟨"system", pyOrStr systemPromptCfg defaultSystemPrompt⟩, ⟨"user", userMessage⟩]

/-- The `for iteration in range(self.mcp_config.max_tool_calls + 1)` ReAct loop
of `MCPAgent.invoke`. `chat` is the `llm_manager.chat` oracle and
`parseToolCalls` the `_parse_tool_calls` step (regex + JSON extraction, not
itself the subject of any claim). The loop body has no `try/except`, so a
raised inference error propagates (`Except.error`). The second component
counts the inference calls performed. -/
def mcpReactLoop (chat : List ChatMsg → Except String String)
    (parseToolCalls : String → List MCPToolCall)
    (toolsCache : List (String × ToolCacheEntry))
    (callTool : String → String → String → Except String CallToolResult)
    : Nat → List ChatMsg → Except String String × Nat
  | 0, _ => (.ok "Sorry, I couldn\x27t complete the task within the allowed tool calls.", 0)
  | fuel + 1, messages =>
      match chat messages with
      | .error e => (.error e, 1)
      | .ok assistantMessage =>
          let toolCalls := parseToolCalls assistantMessage
          if toolCalls.isEmpty then (.ok assistantMessage, 1)
          else
            let messages1 := messages ++ [ChatMsg.mk "assistant" assistantMessage]
            let toolResults := toolCalls.map (execute_tool_call toolsCache callTool)
            let toolMessage := format_tool_results toolResults
            let messages2 := messages1 ++ [ChatMsg.mk "user" toolMessage]
            let rest := mcpReactLoop chat parseToolCalls toolsCache callTool fuel messages2
            (rest.1, rest.2 + 1)

/-- `MCPAgent.invoke` with `max_tool_calls = maxToolCalls`. -/
def mcpInvoke (chat : List ChatMsg → Except String String)
    (parseToolCalls : String → List MCPToolCall)
    (toolsCache : List (String × ToolCacheEntry))
    (callTool : String → String → String → Except String CallToolResult)
    (maxToolCalls : Nat) (systemPromptCfg : Option String)
    (defaultSystemPrompt : String) (input : PyInput) : Except String String × Nat :=
  mcpReactLoop chat parseToolCalls toolsCache callTool (maxToolCalls + 1)
    (build_initial_messages systemPromptCfg defaultSystemPrompt (extractUserMessage input))

/- ## MCPClientManager and MCPManagerPool (src/core/mcp_manager.py) -/

/-- The four proxy environment variables handled by
`MCPClientManager._disable_proxy` / `_restore_proxy`: HTTP_PROXY, HTTPS_PROXY,
http_proxy, https_proxy. `none` means the variable is unset. -/
structure ProxyEnv where
  httpProxyUpper : Option String
  httpsProxyUpper : Option String
  httpProxyLower : Option String
  httpsProxyLower : Option String
deriving DecidableEq

/-- `MCPClientManager._disable_proxy`: record the old values of the four
variables and pop them all from the environment. -/
def disable_proxy (env : ProxyEnv) : ProxyEnv × ProxyEnv :=
  (env, ⟨none, none, none, none⟩)

/-- One key of `MCPClientManager._restore_proxy`: a recorded value of `None`
is not written back, anything else is restored. -/
def restoreKey (old current : Option String) : Option String :=
  match old with
  | some v => some v
  | none => current

/-- `MCPClientManager._restore_proxy` applied to all four variables. -/
def restore_proxy (oldValues : ProxyEnv) (env : ProxyEnv) : ProxyEnv :=
  ⟨restoreKey oldValues.httpProxyUpper env.httpProxyUpper,
   restoreKey oldValues.httpsProxyUpper env.httpsProxyUpper,
   restoreKey oldValues.httpProxyLower env.httpProxyLower,
   restoreKey oldValues.httpsProxyLower env.httpsProxyLower⟩

/-- `MCPClientManager._initialize_streamable_http`: fail on a missing URL
before any proxy handling; otherwise, when `use_proxy` is false, pop the proxy
variables, run the connection setup (`connectOutcome` is the oracle for
`streamablehttp_client` + session handshake, `Except.error` when it raises),
and restore the variables in the `finally` block whatever the outcome. The
setup body itself never touches the proxy variables. -/
def initialize_streamable_http (connectOutcome : Except String Unit)
    (url : Option String) (useProxy : Bool) (env : ProxyEnv)
    : Except String Unit × ProxyEnv :=
  match url with
  | none => (.error "requires \x27url\x27 for this transport", env)
  | some _ =>
      if useProxy then (connectOutcome, env)
      else
        let disabled := disable_proxy env
        (connectOutcome, restore_proxy disabled.1 disabled.2)

/-- The state of one `MCPClientManager`: name, whether `_session` is set,
whether that session reports itself closed, the `_tools` cache, the configured
`use_proxy` flag, and the `_initialized` flag. -/
structure MCPClientState where
  name : String
  hasSession : Bool
  sessionClosed : Bool
  tools : List MCPTool
  useProxy : Bool
  initialized : Bool
deriving DecidableEq

/-- `MCPClientManager.__init__`: fresh client — no session, empty tool cache,
not initialized. -/
def mkMCPClient (name : String) (useProxy : Bool) : MCPClientState :=
  ⟨name, false, false, [], useProxy, false⟩

/-- `MCPClientManager.get_cached_tools`: return `_tools` without querying. -/
def get_cached_tools (c : MCPClientState) : List MCPTool :=
  c.tools

/-- `MCPClientManager.list_tools`: raise when not connected or closed;
otherwise query the session (`query` is the `self._session.list_tools()`
oracle, run under proxy suppression when `use_proxy` is false, with the
suppression undone in the `finally` block), replace `_tools` on success and
re-raise on failure leaving `_tools` untouched. -/
def list_tools (query : Except String (List MCPTool)) (env : ProxyEnv)
    (c : MCPClientState) : Except String (List MCPTool) × ProxyEnv × MCPClientState :=
  if c.hasSession = false then
    (.error ("MCP client \x27" ++ c.name ++ "\x27 not connected (session is None)"), env, c)
  else if c.sessionClosed = true then
    (.error ("MCP client \x27" ++ c.name ++ "\x27 session is closed"), env, c)
  else if c.useProxy then
    match query with
    | .ok ts => (.ok ts, env, { c with tools := ts })
    | .error e => (.error e, env, c)
  else
    let disabled := disable_proxy env
    match query with
    | .ok ts => (.ok ts, restore_proxy disabled.1 disabled.2, { c with tools := ts })
    | .error e => (.error e, restore_proxy disabled.1 disabled.2, c)

/-- `MCPClientManager.initialize`: no-op when already initialized; otherwise
run the transport setup (`transportInit` oracle), and only on success mark the
client initialized with a live session. A raised setup error propagates. -/
def clientInitialize (transportInit : Except String Unit) (c : MCPClientState)
    : Except String Unit × MCPClientState :=
  if c.initialized then (.ok (), c)
  else
    match transportInit with
    | .ok _ => (.ok (), { c with initialized := true, hasSession := true })
    | .error e => (.error e, c)

/-- The state of `MCPManagerPool`: the registered clients and the pool-level
`_initialized` flag. -/
structure MCPManagerPool where
  clients : List (String × MCPClientState)
  initialized : Bool
deriving DecidableEq

/-- `MCPManagerPool.initialize_all`: no-op when already initialized; otherwise
initialize every client (`asyncio.gather` with `return_exceptions=True`
modelled as an outcome per client, each depending only on its own transport
oracle), collect the names whose initialization raised, and mark the pool
initialized regardless. The first component is the `failed` list the source
computes and logs; the function is total — nothing is raised. -/
def initialize_all (transportInit : String → Except String Unit)
    (pool : MCPManagerPool) : List String × MCPManagerPool :=
  if pool.initialized then ([], pool)
  else
    let results := pool.clients.map
      (fun nc => (nc.1, clientInitialize (transportInit nc.1) nc.2))
    (results.filterMap (fun nr =>
        match nr.2.1 with
        | .error _ => some nr.1
        | .ok _ => none),
     ⟨results.map (fun nr => (nr.1, nr.2.2)), true⟩)

/- ## Helper lemmas -/

theorem mcpReactLoop_count_le (chat : List ChatMsg → Except String String)
    (parseToolCalls : String → List MCPToolCall)
    (toolsCache : List (String × ToolCacheEntry))
    (callTool : String → String → String → Except String CallToolResult) :
    ∀ (fuel : Nat) (messages : List ChatMsg),
      (mcpReactLoop chat parseToolCalls toolsCache callTool fuel messages).2 ≤ fuel := by
  intro fuel
  induction fuel with
  | zero => intro messages; simp [mcpReactLoop]
  | succ n ih =>
      intro messages
      simp only [mcpReactLoop]
      split
      · simp
      · split
        · simp
        · exact Nat.succ_le_succ (ih _)

theorem toolCallingLoop_count_le (chat : List TCAMsg → Except String TCALLMResponse)
    (argsLoads : String → Except String String) (ex : ToolExecutor)
    (maxIterations : Nat) :
    ∀ (fuel : Nat) (messages : List TCAMsg),
      (toolCallingLoop chat argsLoads ex maxIterations fuel messages).2 ≤ fuel := by
  intro fuel
  induction fuel with
  | zero => intro messages; simp [toolCallingLoop]
  | succ n ih =>
      intro messages
      simp only [toolCallingLoop]
      split
      · simp
      · split
        · simp
        · exact Nat.succ_le_succ (ih _)

/- ## Claim theorems -/

/-- C1: For every invocation of the reasoning loop with iteration budget N
(`MCPAgent.invoke` with `max_tool_calls = N`, or `ToolCallingLLMAgent.invoke`
with `max_iterations = N`), the loop performs at most N+1 inference calls
(`llm_manager.chat`) before returning. -/
theorem inference_call_budget
    (chatM : List ChatMsg → Except String String)
    (parseToolCalls : String → List MCPToolCall)
    (toolsCache : List (String × ToolCacheEntry))
    (callTool : String → String → String → Except String CallToolResult)
    (chatT : List TCAMsg → Except String TCALLMResponse)
    (argsLoads : String → Except String String) (ex : ToolExecutor)
    (N : Nat) (sysCfg : Option String) (dfltPrompt : String)
    (inputM inputT : PyInput) (sysPrompt : String) :
    (mcpInvoke chatM parseToolCalls toolsCache callTool N sysCfg dfltPrompt inputM).2 ≤ N + 1
    ∧ (tcaInvoke chatT argsLoads ex N sysPrompt inputT).2 ≤ N + 1 :=
  ⟨mcpReactLoop_count_le chatM parseToolCalls toolsCache callTool (N + 1) _,
   Nat.le_trans (toolCallingLoop_count_le chatT argsLoads ex N N _) (Nat.le_succ N)⟩

/-- C4: A streaming-network session setup
(`MCPClientManager._initialize_streamable_http`) with `use_proxy = false`
leaves every proxy environment variable (HTTP_PROXY, HTTPS_PROXY, http_proxy,
https_proxy) exactly as it was, whether the setup succeeds or raises: each
variable that was set beforehand equals its prior value afterwards (frame
equality of the whole proxy environment). -/
theorem proxy_env_restored_after_streamable_http_setup
    (connectOutcome : Except String Unit) (url : Option String) (env : ProxyEnv) :
    (initialize_streamable_http connectOutcome url false env).2 = env := by
  cases env with
  | mk a b c d =>
      cases url with
      | none => rfl
      | some u => cases a <;> cases b <;> cases c <;> cases d <;> rfl

/-- C8: `get_cached_tools` on a freshly constructed client returns the empty
list, and after one successful `list_tools` call it returns exactly the tool
list the provider declared in that call, which is also what `list_tools`
itself returned. -/
theorem cached_tools_round_trip
    (name : String) (useProxy : Bool) (c : MCPClientState) (env : ProxyEnv)
    (ts : List MCPTool)
    (hsess : c.hasSession = true) (hclosed : c.sessionClosed = false) :
    get_cached_tools (mkMCPClient name useProxy) = []
    ∧ (list_tools (Except.ok ts) env c).1 = Except.ok ts
    ∧ get_cached_tools (list_tools (Except.ok ts) env c).2.2 = ts := by
  refine ⟨rfl, ?_⟩
  unfold list_tools get_cached_tools
  rw [hsess, hclosed]
  cases hcu : c.useProxy <;> simp

theorem cached_tools_round_trip_witness :
    get_cached_tools (mkMCPClient "m" false) = []
    ∧ (list_tools (Except.ok [(⟨"t", "d"⟩ : MCPTool)]) ⟨none, none, none, none⟩
        ⟨"m", true, false, [], false, true⟩).1 = Except.ok [(⟨"t", "d"⟩ : MCPTool)]
    ∧ get_cached_tools (list_tools (Except.ok [(⟨"t", "d"⟩ : MCPTool)])
        ⟨none, none, none, none⟩ ⟨"m", true, false, [], false, true⟩).2.2
      = [(⟨"t", "d"⟩ : MCPTool)] :=
  cached_tools_round_trip "m" false ⟨"m", true, false, [], false, true⟩
    ⟨none, none, none, none⟩ [⟨"t", "d"⟩] rfl rfl

/-- C10: `MCPClientManager.list_tools` is atomic on error — when the session
query raises, and more generally whenever `list_tools` results in an error,
the cached `_tools` list is exactly what it was before the call; it is
replaced only on success. -/
theorem list_tools_atomic_on_error
    (e : String) (env : ProxyEnv) (c : MCPClientState)
    (query : Except String (List MCPTool)) :
    ((list_tools (Except.error e) env c).2.2).tools = c.tools
    ∧ (∀ e2, (list_tools query env c).1 = Except.error e2 →
        ((list_tools query env c).2.2).tools = c.tools) := by
  constructor
  · unfold list_tools
    cases hs : c.hasSession <;> cases hc : c.sessionClosed <;>
      cases hu : c.useProxy <;> simp
  · intro e2 hres
    cases query with
    | error e3 =>
        unfold list_tools
        cases hs : c.hasSession <;> cases hc : c.sessionClosed <;>
          cases hu : c.useProxy <;> simp
    | ok ts =>
        unfold list_tools at hres ⊢
        cases hs : c.hasSession <;> cases hc : c.sessionClosed <;>
          cases hu : c.useProxy <;> simp_all

theorem list_tools_atomic_on_error_witness :
    ((list_tools (Except.error "boom") ⟨none, none, none, none⟩
        ⟨"m", true, false, [(⟨"old", "d"⟩ : MCPTool)], false, true⟩).2.2).tools
      = [(⟨"old", "d"⟩ : MCPTool)] :=
  (list_tools_atomic_on_error "x" ⟨none, none, none, none⟩
      ⟨"m", true, false, [⟨"old", "d"⟩], false, true⟩ (Except.error "boom")).2 "boom" rfl

/- ## Helper lemmas and theorems for the pool and the tool cache -/

/-- C5: `MCPManagerPool.initialize_all` on a not-yet-initialized pool is total
(the model is a function — nothing is raised), each client's outcome depends
only on its own transport oracle, a succeeding session ends up initialized
(usable), a failing session is recorded in the returned `failed` list and its
state left uninitialized, and the pool as a whole is marked initialized. -/
theorem initialize_all_isolates_failures
    (transportInit : String → Except String Unit) (pool : MCPManagerPool)
    (hpool : pool.initialized = false)
    (a : String) (ca : MCPClientState) (ha : (a, ca) ∈ pool.clients)
    (hOk : transportInit a = Except.ok ())
    (b : String) (cb : MCPClientState) (hb : (b, cb) ∈ pool.clients)
    (e : String) (hErr : transportInit b = Except.error e)
    (hcb : cb.initialized = false) :
    (initialize_all transportInit pool).2.initialized = true
    ∧ (∃ ca2, (a, ca2) ∈ (initialize_all transportInit pool).2.clients
        ∧ ca2.initialized = true)
    ∧ b ∈ (initialize_all transportInit pool).1
    ∧ (b, cb) ∈ (initialize_all transportInit pool).2.clients := by
  have hclients : (initialize_all transportInit pool).2.clients
      = pool.clients.map (fun nc => (nc.1, (clientInitialize (transportInit nc.1) nc.2).2)) := by
    simp only [initialize_all, hpool, Bool.false_eq_true, if_false, List.map_map]
    rfl
  have hfailed : (initialize_all transportInit pool).1
      = pool.clients.filterMap (fun nc =>
          match (clientInitialize (transportInit nc.1) nc.2).1 with
          | .error _ => some nc.1
          | .ok _ => none) := by
    simp only [initialize_all, hpool, Bool.false_eq_true, if_false, List.filterMap_map]
    rfl
  have hinit : (initialize_all transportInit pool).2.initialized = true := by
    simp [initialize_all, hpool]
  refine ⟨hinit, ?_, ?_, ?_⟩
  · refine ⟨(clientInitialize (transportInit a) ca).2, ?_, ?_⟩
    · rw [hclients]
      exact List.mem_map_of_mem _ ha
    · rw [hOk]
      cases hca : ca.initialized <;> simp [clientInitialize, hca]
  · rw [hfailed]
    refine List.mem_filterMap.mpr ⟨(b, cb), hb, ?_⟩
    rw [hErr]
    simp [clientInitialize, hcb]
  · rw [hclients]
    have hmem := List.mem_map_of_mem
      (fun nc : String × MCPClientState => (nc.1, (clientInitialize (transportInit nc.1) nc.2).2)) hb
    simpa [hErr, clientInitialize, hcb] using hmem

theorem initialize_all_isolates_failures_witness :
    (initialize_all (fun n => if n = "good" then Except.ok () else Except.error "boom")
        ⟨[("good", mkMCPClient "good" true), ("bad", mkMCPClient "bad" false)], false⟩).2.initialized
      = true
    ∧ (∃ ca2, ("good", ca2) ∈ (initialize_all
          (fun n => if n = "good" then Except.ok () else Except.error "boom")
          ⟨[("good", mkMCPClient "good" true), ("bad", mkMCPClient "bad" false)], false⟩).2.clients
        ∧ ca2.initialized = true)
    ∧ "bad" ∈ (initialize_all
        (fun n => if n = "good" then Except.ok () else Except.error "boom")
        ⟨[("good", mkMCPClient "good" true), ("bad", mkMCPClient "bad" false)], false⟩).1
    ∧ ("bad", mkMCPClient "bad" false) ∈ (initialize_all
        (fun n => if n = "good" then Except.ok () else Except.error "boom")
        ⟨[("good", mkMCPClient "good" true), ("bad", mkMCPClient "bad" false)], false⟩).2.clients :=
  initialize_all_isolates_failures
    (fun n => if n = "good" then Except.ok () else Except.error "boom")
    ⟨[("good", mkMCPClient "good" true), ("bad", mkMCPClient "bad" false)], false⟩
    rfl "good" (mkMCPClient "good" true) (by simp) rfl
    "bad" (mkMCPClient "bad" false) (by simp) "boom" rfl rfl

/-- The `(key, entry)` insertions performed by one `MCPAgent.initialize` load,
in order of appearance. -/
def loadPairs (toolsByServer : List (String × List MCPTool)) : List (String × ToolCacheEntry) :=
  toolsByServer.flatMap (fun st => st.2.map (fun t => (st.1 ++ ":" ++ t.name, ⟨st.1, t⟩)))

/-- Sequential dict insertion of a list of key/entry pairs. -/
def insertAll (pairs : List (String × ToolCacheEntry))
    (cache : List (String × ToolCacheEntry)) : List (String × ToolCacheEntry) :=
  pairs.foldl (fun c kv => dictInsert kv.1 kv.2 c) cache

theorem nestedFold_eq_insertAll :
    ∀ (load : List (String × List MCPTool)) (cache : List (String × ToolCacheEntry)),
      load.foldl (fun cache st => st.2.foldl (fun cache tool =>
          dictInsert (st.1 ++ ":" ++ tool.name) ⟨st.1, tool⟩ cache) cache) cache
        = insertAll (loadPairs load) cache := by
  intro load
  induction load with
  | nil => intro cache; rfl
  | cons st rest ih =>
      intro cache
      simp only [List.foldl_cons]
      rw [ih]
      unfold insertAll loadPairs
      rw [List.flatMap_cons, List.foldl_append, List.foldl_map]

/-- The last entry inserted under key `k` by a pair list, if any. -/
def lastValue (k : String) : List (String × ToolCacheEntry) → Option ToolCacheEntry
  | [] => none
  | kv :: rest =>
      match lastValue k rest with
      | some w => some w
      | none => if kv.1 = k then some kv.2 else none

theorem dictFind_dictInsert (k k2 : String) (v : ToolCacheEntry) :
    ∀ c : List (String × ToolCacheEntry),
      dictFind k (dictInsert k2 v c) = if k2 = k then some v else dictFind k c := by
  intro c
  induction c with
  | nil => simp [dictFind, dictInsert]
  | cons kv rest ih =>
      simp only [dictInsert]
      by_cases h1 : kv.1 = k2
      · rw [if_pos h1]
        by_cases h2 : k2 = k
        · simp [dictFind, h2]
        · have h3 : ¬ kv.1 = k := by rw [h1]; exact h2
          simp [dictFind, h2, h3]
      · rw [if_neg h1]
        by_cases h3 : kv.1 = k
        · have h2 : ¬ k2 = k := fun hk => h1 (h3.trans hk.symm)
          simp [dictFind, h3, h2]
        · simp [dictFind, h3, ih]

theorem dictFind_insertAll (k : String) :
    ∀ (pairs : List (String × ToolCacheEntry)) (cache : List (String × ToolCacheEntry)),
      dictFind k (insertAll pairs cache)
        = match lastValue k pairs with
          | some w => some w
          | none => dictFind k cache := by
  intro pairs
  induction pairs with
  | nil => intro cache; rfl
  | cons kv rest ih =>
      intro cache
      show dictFind k (insertAll rest (dictInsert kv.1 kv.2 cache)) = _
      rw [ih]
      simp only [lastValue]
      cases hlv : lastValue k rest with
      | some w => simp
      | none =>
          rw [dictFind_dictInsert]
          by_cases h : kv.1 = k <;> simp [h]

theorem lastValue_eq_none (k : String) :
    ∀ pairs : List (String × ToolCacheEntry),
      k ∉ pairs.map (fun kv => kv.1) → lastValue k pairs = none := by
  intro pairs
  induction pairs with
  | nil => intro _; rfl
  | cons kv rest ih =>
      intro h
      simp only [List.map_cons, List.mem_cons, not_or] at h
      obtain ⟨h1, h2⟩ := h
      simp only [lastValue, ih h2]
      exact if_neg (fun hk => h1 hk.symm)

theorem lastValue_mem (k : String) :
    ∀ (pairs : List (String × ToolCacheEntry)) (w : ToolCacheEntry),
      lastValue k pairs = some w → (k, w) ∈ pairs := by
  intro pairs
  induction pairs with
  | nil => intro w h; simp [lastValue] at h
  | cons kv rest ih =>
      intro w h
      simp only [lastValue] at h
      cases hlv : lastValue k rest with
      | some w2 =>
          rw [hlv] at h
          cases h
          exact List.mem_cons_of_mem _ (ih _ hlv)
      | none =>
          rw [hlv] at h
          obtain ⟨k1, v1⟩ := kv
          by_cases hk : k1 = k
          · subst hk
            rw [if_pos rfl] at h
            cases h
            exact List.mem_cons_self _ _
          · rw [if_neg hk] at h
            cases h

theorem lastValue_isSome_of_mem (k : String) :
    ∀ (pairs : List (String × ToolCacheEntry)) (v : ToolCacheEntry),
      (k, v) ∈ pairs → (lastValue k pairs).isSome = true := by
  intro pairs
  induction pairs with
  | nil => intro v h; simp at h
  | cons kv rest ih =>
      intro v h
      simp only [lastValue]
      cases hlv : lastValue k rest with
      | some w => simp
      | none =>
          rcases List.mem_cons.mp h with h1 | h2
          · rw [← h1]
            simp
          · have hsome := ih v h2
            rw [hlv] at hsome
            simp at hsome

/-- C6 counterexample: after a first load reporting only tool `a` of server
`s` and a reload reporting only tool `b`, the cache still contains the stale
entry `s:a` — the claim demands that after the reload the cache contain
exactly the entries of the current load, so `s:a` would have to be absent. -/
theorem tools_cache_reload_keeps_stale_entry :
    dictFind "s:a"
      (mcpAgentInitialize ["s"] [("s", [⟨"b", "tool b"⟩])]
        (mcpAgentInitialize ["s"] [("s", [⟨"a", "tool a"⟩])] []))
      = some ⟨"s", ⟨"a", "tool a"⟩⟩ := by
  rfl

/-- C6 amended: reloading the per-agent tool registry merges into the cache:
every key reported by the current load maps to an entry coming from that load
(same-key stale entries are overwritten), while entries whose keys the current
load no longer reports persist in the cache rather than becoming absent. -/
theorem tools_cache_reload_merges
    (servers : List String) (hs : servers.isEmpty = false)
    (load : List (String × List MCPTool)) (cache : List (String × ToolCacheEntry))
    (k : String) :
    (k ∉ (loadPairs load).map (fun kv => kv.1) →
       dictFind k (mcpAgentInitialize servers load cache) = dictFind k cache)
    ∧ (∀ v, (k, v) ∈ loadPairs load →
       ∃ w, dictFind k (mcpAgentInitialize servers load cache) = some w
         ∧ (k, w) ∈ loadPairs load) := by
  have hfold : mcpAgentInitialize servers load cache = insertAll (loadPairs load) cache := by
    unfold mcpAgentInitialize
    rw [if_neg (by simp [hs])]
    exact nestedFold_eq_insertAll load cache
  constructor
  · intro hk
    rw [hfold, dictFind_insertAll, lastValue_eq_none k (loadPairs load) hk]
  · intro v hv
    rw [hfold, dictFind_insertAll]
    have hsome := lastValue_isSome_of_mem k (loadPairs load) v hv
    cases hlv : lastValue k (loadPairs load) with
    | none => rw [hlv] at hsome; simp at hsome
    | some w => exact ⟨w, rfl, lastValue_mem k (loadPairs load) w hlv⟩

theorem tools_cache_reload_merges_witness :
    (dictFind "old:key"
        (mcpAgentInitialize ["s"] [("s", [⟨"a", "d"⟩])]
          [("old:key", ⟨"old", ⟨"key", "d2"⟩⟩)])
      = dictFind "old:key" [("old:key", ⟨"old", ⟨"key", "d2"⟩⟩)])
    ∧ ∃ w, dictFind "s:a"
        (mcpAgentInitialize ["s"] [("s", [⟨"a", "d"⟩])]
          [("old:key", ⟨"old", ⟨"key", "d2"⟩⟩)]) = some w
        ∧ ("s:a", w) ∈ loadPairs [("s", [⟨"a", "d"⟩])] :=
  ⟨(tools_cache_reload_merges ["s"] rfl [("s", [⟨"a", "d"⟩])]
      [("old:key", ⟨"old", ⟨"key", "d2"⟩⟩)] "old:key").1 (by decide),
   (tools_cache_reload_merges ["s"] rfl [("s", [⟨"a", "d"⟩])]
      [("old:key", ⟨"old", ⟨"key", "d2"⟩⟩)] "s:a").2 ⟨"s", ⟨"a", "d"⟩⟩ (by decide)⟩

/-- C7 counterexample: `MCPAgent.invoke` with a null input builds its initial
messages with the literal `str(None)` rendering "None" as the user message —
not a canonical greeting. -/
theorem mcp_null_input_is_str_none :
    build_initial_messages none "sys" (extractUserMessage PyInput.pyNone)
      = [⟨"system", "sys"⟩, ⟨"user", "None"⟩]
    ∧ extractUserMessage PyInput.pyNone ≠ "Hello!" :=
  ⟨rfl, by decide⟩

/-- C7 amended: only `ToolCallingLLMAgent._prepare_messages` defaults a null
input to the canonical greeting "Hello!" (as the user message after the system
prompt); `MCPAgent.invoke` instead uses the literal string rendering of the
null value ("None") as the user message. -/
theorem null_input_handling (systemPrompt : String) :
    prepare_messages systemPrompt PyInput.pyNone
      = [⟨"system", some systemPrompt, none, []⟩, ⟨"user", some "Hello!", none, []⟩]
    ∧ extractUserMessage PyInput.pyNone = "None" :=
  ⟨rfl, rfl⟩

/-- An error text one character beyond the 2000-character truncation cap. -/
def longErrorText : String := String.mk (List.replicate 2001 'x')

theorem longErrorText_length : longErrorText.length = 2001 := by
  unfold longErrorText
  rw [String.mk_length, List.length_replicate]

/-- C9 counterexample: an error result whose text has 2001 characters is
formatted verbatim by `MCPAgent._format_tool_results` — neither cut at 2000
characters nor given a truncation marker — whereas the claim demands
truncation for every result text beyond the cap, error outcomes included. -/
theorem error_result_formatted_verbatim :
    2000 < longErrorText.length
    ∧ formatToolResultLine (MCPToolResult.err "t" longErrorText)
        = "\n[t] Error: " ++ longErrorText := by
  refine ⟨by rw [longErrorText_length]; omega, rfl⟩

/-- C9 amended: when formatting the turn's tool results, a success result text
longer than 2000 characters is truncated to 2000 characters with the marker
appended, a success result text at or under the cap is included verbatim, and
an error result text is always included verbatim; the observation message is
the header plus one such line per result. -/
theorem tool_result_truncation
    (toolName res e : String) (results : List MCPToolResult) :
    (2000 < res.length →
       formatToolResultLine (MCPToolResult.ok toolName res)
         = "\n[" ++ toolName ++ "] Result:\n" ++ (res.take 2000 ++ "\n...(truncated)"))
    ∧ (res.length ≤ 2000 →
       formatToolResultLine (MCPToolResult.ok toolName res)
         = "\n[" ++ toolName ++ "] Result:\n" ++ res)
    ∧ formatToolResultLine (MCPToolResult.err toolName e)
        = "\n[" ++ toolName ++ "] Error: " ++ e
    ∧ format_tool_results results
        = String.intercalate "\n"
            ("Tool execution results:" :: results.map formatToolResultLine) := by
  refine ⟨?_, ?_, rfl, rfl⟩
  · intro h
    simp only [formatToolResultLine]
    rw [if_pos (by omega)]
  · intro h
    simp only [formatToolResultLine]
    rw [if_neg (by omega)]

theorem tool_result_truncation_witness :
    formatToolResultLine (MCPToolResult.ok "t" longErrorText)
      = "\n[" ++ "t" ++ "] Result:\n" ++ (longErrorText.take 2000 ++ "\n...(truncated)")
    ∧ formatToolResultLine (MCPToolResult.ok "t" "short")
      = "\n[" ++ "t" ++ "] Result:\n" ++ "short" :=
  ⟨(tool_result_truncation "t" longErrorText "" []).1 (by rw [longErrorText_length]; omega),
   (tool_result_truncation "t" "short" "" []).2.1 (by decide)⟩

/-- C3 counterexample: with an inference oracle that raises, `MCPAgent.invoke`
propagates the exception to its caller instead of catching it and returning an
apology string — the loop body of `MCPAgent.invoke` has no `try/except`. -/
theorem mcp_invoke_propagates_inference_error :
    (mcpInvoke (fun _ => Except.error "boom") (fun _ => []) []
        (fun _ _ _ => Except.error "no call") 3 none "prompt"
        (PyInput.pyStr "hi")).1 = Except.error "boom" := rfl

/-- C3 amended: in `ToolCallingLLMAgent.invoke` an exception raised during a
turn (inference included) is caught at the loop boundary and converted into a
returned apology string carrying the error text, with the loop returning
immediately (exactly one inference call in that turn); in `MCPAgent.invoke`,
by contrast, a raised inference error propagates uncaught out of the loop to
the caller of `invoke`. -/
theorem loop_boundary_error_handling
    (chatT : List TCAMsg → Except String TCALLMResponse)
    (argsLoads : String → Except String String) (ex : ToolExecutor) (maxIter : Nat)
    (chatM : List ChatMsg → Except String String)
    (parseToolCalls : String → List MCPToolCall)
    (toolsCache : List (String × ToolCacheEntry))
    (callTool : String → String → String → Except String CallToolResult) :
    (∀ (fuel : Nat) (messages : List TCAMsg) (e : String),
        chatT messages = Except.error e →
        toolCallingLoop chatT argsLoads ex maxIter (fuel + 1) messages
          = ("Sorry, I encountered an error: " ++ e, 1))
    ∧ (∀ (fuel : Nat) (messages : List ChatMsg) (e : String),
        chatM messages = Except.error e →
        mcpReactLoop chatM parseToolCalls toolsCache callTool (fuel + 1) messages
          = (Except.error e, 1)) := by
  constructor
  · intro fuel messages e h
    simp [toolCallingLoop, h]
  · intro fuel messages e h
    simp [mcpReactLoop, h]

theorem loop_boundary_error_handling_witness :
    toolCallingLoop (fun _ => Except.error "boom") (fun _ => Except.error "x") ⟨[]⟩ 5 3 []
      = ("Sorry, I encountered an error: boom", 1)
    ∧ mcpReactLoop (fun _ => Except.error "boom") (fun _ => []) []
        (fun _ _ _ => Except.error "y") 3 []
      = (Except.error "boom", 1) :=
  ⟨(loop_boundary_error_handling (fun _ => Except.error "boom")
      (fun _ => Except.error "x") ⟨[]⟩ 5 (fun _ => Except.error "boom")
      (fun _ => []) [] (fun _ _ _ => Except.error "y")).1 2 [] "boom" rfl,
   (loop_boundary_error_handling (fun _ => Except.error "boom")
      (fun _ => Except.error "x") ⟨[]⟩ 5 (fun _ => Except.error "boom")
      (fun _ => []) [] (fun _ _ _ => Except.error "y")).2 2 [] "boom" rfl⟩

/-- C2: Each dispatched tool-call list yields exactly one result record per
request, in order and with ids preserved, in both dispatchers
(`ToolExecutor.execute_all` and the per-turn dispatch of `MCPAgent`); and a
failed dispatch — unknown tool, malformed arguments, or a raised provider/tool
exception — yields a result record carrying the error text rather than an
exception. -/
theorem tool_dispatch_one_result_per_request
    (argsLoads : String → Except String String) (ex : ToolExecutor)
    (toolsCache : List (String × ToolCacheEntry))
    (callTool : String → String → String → Except String CallToolResult) :
    (∀ toolCalls : List ToolCallRec,
        (ex.execute_all argsLoads toolCalls).length = toolCalls.length)
    ∧ (∀ toolCalls : List ToolCallRec,
        (ex.execute_all argsLoads toolCalls).map (fun m => m.toolCallId)
          = toolCalls.map (fun tc => some tc.id))
    ∧ (∀ tc : ToolCallRec, dictFind tc.fname ex.tools = none →
        ex.execute argsLoads tc
          = dumpsError ("Tool \x27" ++ tc.fname ++ "\x27 not found. Available tools: "
              ++ pyListRepr (ex.tools.map (fun kv => kv.1))))
    ∧ (∀ (tc : ToolCallRec) (f : String → PyCallOutcome) (e : String),
        dictFind tc.fname ex.tools = some f →
        argsLoads tc.argumentsJson = Except.error e →
        ex.execute argsLoads tc = dumpsError ("Failed to parse tool arguments: " ++ e))
    ∧ (∀ (tc : ToolCallRec) (f : String → PyCallOutcome) (args e : String),
        dictFind tc.fname ex.tools = some f →
        argsLoads tc.argumentsJson = Except.ok args →
        f args = PyCallOutcome.raiseOther e →
        ex.execute argsLoads tc = dumpsError ("Tool execution error: " ++ e))
    ∧ (∀ tcs : List MCPToolCall,
        (tcs.map (execute_tool_call toolsCache callTool)).length = tcs.length)
    ∧ (∀ tc : MCPToolCall, dictFind tc.tool toolsCache = none →
        execute_tool_call toolsCache callTool tc
          = MCPToolResult.err tc.tool ("Tool \x27" ++ tc.tool ++ "\x27 not found"))
    ∧ (∀ (tc : MCPToolCall) (info : ToolCacheEntry) (e : String),
        dictFind tc.tool toolsCache = some info →
        callTool info.server info.tool.name tc.argumentsDict = Except.error e →
        execute_tool_call toolsCache callTool tc = MCPToolResult.err tc.tool e) := by
  refine ⟨?_, ?_, ?_, ?_, ?_, ?_, ?_, ?_⟩
  · intro toolCalls
    simp [ToolExecutor.execute_all]
  · intro toolCalls
    simp only [ToolExecutor.execute_all, List.map_map]
    rfl
  · intro tc h
    simp [ToolExecutor.execute, h]
  · intro tc f e h1 h2
    simp [ToolExecutor.execute, h1, h2]
  · intro tc f args e h1 h2 h3
    simp [ToolExecutor.execute, h1, h2, h3]
  · intro tcs
    simp
  · intro tc h
    simp [execute_tool_call, h]
  · intro tc info e h1 h2
    simp [execute_tool_call, h1, h2]

theorem tool_dispatch_one_result_per_request_witness :
    ((ToolExecutor.mk [("boomtool", fun _ => PyCallOutcome.raiseOther "exploded")]).execute_all
        (fun s => if s = "ok" then Except.ok "parsed" else Except.error "bad")
        [⟨"id1", "ghost", "ok"⟩, ⟨"id2", "boomtool", "bad"⟩]).length
      = ([⟨"id1", "ghost", "ok"⟩, (⟨"id2", "boomtool", "bad"⟩ : ToolCallRec)] : List ToolCallRec).length
    ∧ (ToolExecutor.mk [("boomtool", fun _ => PyCallOutcome.raiseOther "exploded")]).execute
        (fun s => if s = "ok" then Except.ok "parsed" else Except.error "bad")
        ⟨"id1", "ghost", "ok"⟩
      = dumpsError ("Tool \x27ghost\x27 not found. Available tools: "
          ++ pyListRepr ["boomtool"])
    ∧ (ToolExecutor.mk [("boomtool", fun _ => PyCallOutcome.raiseOther "exploded")]).execute
        (fun s => if s = "ok" then Except.ok "parsed" else Except.error "bad")
        ⟨"id2", "boomtool", "bad"⟩
      = dumpsError ("Failed to parse tool arguments: " ++ "bad")
    ∧ (ToolExecutor.mk [("boomtool", fun _ => PyCallOutcome.raiseOther "exploded")]).execute
        (fun s => if s = "ok" then Except.ok "parsed" else Except.error "bad")
        ⟨"id3", "boomtool", "ok"⟩
      = dumpsError ("Tool execution error: " ++ "exploded")
    ∧ execute_tool_call [("srv:t", ⟨"srv", ⟨"t", "d"⟩⟩)]
        (fun _ _ _ => Except.error "down") ⟨"ghost:t", "args"⟩
      = MCPToolResult.err "ghost:t" ("Tool \x27ghost:t\x27 not found")
    ∧ execute_tool_call [("srv:t", ⟨"srv", ⟨"t", "d"⟩⟩)]
        (fun _ _ _ => Except.error "down") ⟨"srv:t", "args"⟩
      = MCPToolResult.err "srv:t" "down" := by
  have h := tool_dispatch_one_result_per_request
    (fun s => if s = "ok" then Except.ok "parsed" else Except.error "bad")
    (ToolExecutor.mk [("boomtool", fun _ => PyCallOutcome.raiseOther "exploded")])
    [("srv:t", ⟨"srv", ⟨"t", "d"⟩⟩)]
    (fun _ _ _ => Except.error "down")
  refine ⟨h.1 _, ?_, ?_, ?_, ?_, ?_⟩
  · exact h.2.2.1 ⟨"id1", "ghost", "ok"⟩ rfl
  · exact h.2.2.2.1 ⟨"id2", "boomtool", "bad"⟩
      (fun _ => PyCallOutcome.raiseOther "exploded") "bad" rfl rfl
  · exact h.2.2.2.2.1 ⟨"id3", "boomtool", "ok"⟩
      (fun _ => PyCallOutcome.raiseOther "exploded") "parsed" "exploded" rfl rfl rfl
  · exact h.2.2.2.2.2.2.1 ⟨"ghost:t", "args"⟩ rfl
  · exact h.2.2.2.2.2.2.2 ⟨"srv:t", "args"⟩ ⟨"srv", ⟨"t", "d"⟩⟩ "down" rfl rfl

end EasyA2A
